import Mathlib

/-!
Shallow embedding of the SmartPark real-time synchronization layer:
the relay process (src/server.js) and the client sync logic of the main
application component. JavaScript values are modelled with plain Lean
data; machine-level concerns (JSON encoding, wall-clock time) are
abstracted to the values they carry, with timestamps as Nat parameters.
Field presence in a partial payload is an Option; for mapImage, whose
wire value may itself be null, an Option (Option String) distinguishes
an absent key, a present null, and a present string.
-/

namespace SmartPark

/-- Vehicle category of a parking spot (types enum VehicleType). -/
inductive VehicleType
  | CAR
  | MOTORCYCLE
deriving DecidableEq

/-- Occupancy state of a parking spot (types enum ParkingStatus). -/
inductive ParkingStatus
  | FREE
  | OCCUPIED
deriving DecidableEq

/-- Logged-in role (types enum UserRole: ADMIN, GUEST). -/
inductive UserRole
  | ADMIN
  | GUEST
deriving DecidableEq

/-- A parking spot record. The lastUpdated Date is modelled as a Nat tick. -/
structure ParkingSpot where
  id : String
  type : VehicleType
  status : ParkingStatus
  lastUpdated : Nat
deriving DecidableEq

/-- A normalized 2-D coordinate for a spot placed on the map.
Coordinates are modelled as Nat; no claim depends on their arithmetic. -/
structure SpotLocation where
  x : Nat
  y : Nat
deriving DecidableEq

/-- A rectangular map zone. Color and category tags are kept as strings. -/
structure MapZone where
  id : String
  label : String
  x : Nat
  y : Nat
  width : Nat
  height : Nat
  color : String
  category : String
deriving DecidableEq

/-- The relay's in-memory document (appState in server.js). The JS object
Record of spot locations is modelled as an association list. -/
structure AppState where
  spots : List ParkingSpot
  spotLocations : List (String × SpotLocation)
  zones : List MapZone
  mapImage : Option String
  lastUpdated : Nat
deriving DecidableEq

/-- The client's local copy of the shared state: the four React state
values spots, spotLocations, zones, mapImage of the App component. -/
structure LocalState where
  spots : List ParkingSpot
  spotLocations : List (String × SpotLocation)
  zones : List MapZone
  mapImage : Option String
deriving DecidableEq

/-- A partial update payload (types AppStatePayload): each key may be
absent. The mapImage slot is doubly optional: the outer Option is key
presence, the inner Option is the wire value string-or-null. -/
structure AppStatePayload where
  spots : Option (List ParkingSpot)
  spotLocations : Option (List (String × SpotLocation))
  zones : Option (List MapZone)
  mapImage : Option (Option String)
deriving DecidableEq

/-- A wire message (types WSMessage). -/
inductive WSMessage
  | INIT (payload : AppState)
  | UPDATE (payload : AppStatePayload)
  | SYNC_INITIAL (payload : AppStatePayload)
deriving DecidableEq

/-- The relay's document at process start (server.js appState initializer). -/
def initialAppState : AppState :=
  { spots := []
    spotLocations := []
    zones := []
    mapImage := none
    lastUpdated := 0 }

/-- server.js UPDATE branch: each field is guarded by JS truthiness of
the payload slot. A present array (spots, zones) or object
(spotLocations) is always truthy, so presence alone triggers the
replacement; mapImage is truthy only when it is a present, non-null,
non-empty string, so a present null or empty string leaves the field
untouched. lastUpdated is stamped with the current time. -/
def serverApplyUpdate (st : AppState) (p : AppStatePayload) (now : Nat) : AppState :=
  { spots := match p.spots with
      | some v => v
      | none => st.spots
    spotLocations := match p.spotLocations with
      | some v => v
      | none => st.spotLocations
    zones := match p.zones with
      | some v => v
      | none => st.zones
    mapImage := match p.mapImage with
      | some (some s) => if s = "" then st.mapImage else some s
      | some none => st.mapImage
      | none => st.mapImage
    lastUpdated := now }

/-- The ws.onmessage UPDATE branch of the App component: identical
truthiness guards to the relay, applied to the local React state. -/
def clientApplyUpdate (st : LocalState) (p : AppStatePayload) : LocalState :=
  { spots := match p.spots with
      | some v => v
      | none => st.spots
    spotLocations := match p.spotLocations with
      | some v => v
      | none => st.spotLocations
    zones := match p.zones with
      | some v => v
      | none => st.zones
    mapImage := match p.mapImage with
      | some (some s) => if s = "" then st.mapImage else some s
      | some none => st.mapImage
      | none => st.mapImage }

/-- server.js SYNC_INITIAL branch: accepted only while the document's
spots list is empty; the payload is object-spread into the document, so
every present key replaces the corresponding field regardless of
truthiness, and lastUpdated (absent from the payload) is kept. -/
def serverApplySyncInitial (st : AppState) (p : AppStatePayload) : AppState :=
  if st.spots.length = 0 then
    { spots := p.spots.getD st.spots
      spotLocations := p.spotLocations.getD st.spotLocations
      zones := p.zones.getD st.zones
      mapImage := p.mapImage.getD st.mapImage
      lastUpdated := st.lastUpdated }
  else st

/-- A connected peer of the relay: identity (modelling JS reference
identity of the socket object) and whether readyState is OPEN. -/
structure Peer where
  id : Nat
  isOpen : Bool
deriving DecidableEq

/-- server.js broadcast loop inside the UPDATE branch: for every client
other than the sender whose readyState is OPEN, send an UPDATE message
carrying exactly the received payload. Returns the list of (peer id,
message) sends performed. -/
def serverBroadcast (clients : List Peer) (sender : Nat) (payload : AppStatePayload) :
    List (Nat × WSMessage) :=
  (clients.filter (fun c => c.id != sender && c.isOpen)).map
    (fun c => (c.id, WSMessage.UPDATE payload))

/-- The ws.onmessage INIT branch of the App component. closureState is
the React state captured by the mount-only effect closure (the effect
has an empty dependency array, so these are the values from mount);
currentState is the live React state when the message arrives. When the
payload's spots list is non-empty the setters replace fields of the live
state, mapImage only when truthy; otherwise a SYNC_INITIAL built from
the closure-captured values is sent and the state is left alone. The
spotLocations and zones slots of an INIT payload are a JS object and
array, always truthy, so those guards always pass. -/
def clientHandleInit (closureState currentState : LocalState) (payload : AppState) :
    LocalState × Option WSMessage :=
  if payload.spots.length > 0 then
    ({ spots := payload.spots
       spotLocations := payload.spotLocations
       zones := payload.zones
       mapImage := match payload.mapImage with
         | some s => if s = "" then currentState.mapImage else some s
         | none => currentState.mapImage },
     none)
  else
    (currentState,
     some (WSMessage.SYNC_INITIAL
       { spots := some closureState.spots
         spotLocations := some closureState.spotLocations
         zones := some closureState.zones
         mapImage := some closureState.mapImage }))

/-- The four stable localStorage keys used by the client (STORAGE_KEYS:
parking_spots, parking_spot_locations, parking_map_zones,
parking_map_image_data), each holding at most one stored value. Values
are kept in their typed form; JSON encoding is abstracted away. -/
structure LocalStorageModel where
  spotsKey : Option (List ParkingSpot)
  locationsKey : Option (List (String × SpotLocation))
  zonesKey : Option (List MapZone)
  imageKey : Option String
deriving DecidableEq

/-- The part of the App component state a mutation handler touches:
role, connection flag (socketRef open), the local shared-state copy,
and the persistence fallback. -/
structure ClientCtx where
  userRole : UserRole
  isConnected : Bool
  state : LocalState
  storage : LocalStorageModel
deriving DecidableEq

/-- The broadcastUpdate helper: sends an UPDATE over the socket only
when a socket is present and OPEN; otherwise nothing is sent. The
result is the list of UPDATE payloads put on the wire. -/
def broadcastUpdate (ctx : ClientCtx) (p : AppStatePayload) : List AppStatePayload :=
  if ctx.isConnected then [p] else []

/-- The effect that persists spots to localStorage whenever the spots
state changes (the useEffect keyed on spots). -/
def persistSpots (ctx : ClientCtx) : ClientCtx :=
  { ctx with storage := { ctx.storage with spotsKey := some ctx.state.spots } }

/-- The spot-toggling map inside handleToggleSpot: flip the status of
the spot with the given id and stamp its lastUpdated. -/
def toggleSpots (spots : List ParkingSpot) (id : String) (now : Nat) : List ParkingSpot :=
  spots.map (fun s =>
    if s.id = id then
      { s with
        status := if s.status = ParkingStatus.FREE then ParkingStatus.OCCUPIED else ParkingStatus.FREE
        lastUpdated := now }
    else s)

/-- handleToggleSpot: guests return immediately; otherwise the toggled
list replaces the spots state (which fires the spots persistence
effect) and is broadcast as an UPDATE with only the spots key. -/
def handleToggleSpot (ctx : ClientCtx) (id : String) (now : Nat) :
    ClientCtx × List AppStatePayload :=
  if ctx.userRole = UserRole.GUEST then (ctx, [])
  else
    let newSpots := toggleSpots ctx.state.spots id now
    (persistSpots { ctx with state := { ctx.state with spots := newSpots } },
     broadcastUpdate ctx
       { spots := some newSpots, spotLocations := none, zones := none, mapImage := none })

/-- JS object update used by handleUpdateLocation: delete the key when
the new location is null, otherwise assign it (replacing in place when
present, appending when new). -/
def setLocation (locs : List (String × SpotLocation)) (id : String)
    (location : Option SpotLocation) : List (String × SpotLocation) :=
  match location with
  | none => locs.filter (fun e => e.1 != id)
  | some l =>
      if locs.any (fun e => e.1 == id) then
        locs.map (fun e => if e.1 = id then (id, l) else e)
      else locs ++ [(id, l)]

/-- handleUpdateLocation: guests return immediately; otherwise the new
location map replaces the spotLocations state and is broadcast. No
localStorage write happens here. -/
def handleUpdateLocation (ctx : ClientCtx) (id : String) (location : Option SpotLocation) :
    ClientCtx × List AppStatePayload :=
  if ctx.userRole = UserRole.GUEST then (ctx, [])
  else
    let newLocations := setLocation ctx.state.spotLocations id location
    ({ ctx with state := { ctx.state with spotLocations := newLocations } },
     broadcastUpdate ctx
       { spots := none, spotLocations := some newLocations, zones := none, mapImage := none })

/-- A Partial MapZone as passed to handleUpdateZone: every field
optional; present fields overwrite the zone by object spread. -/
structure ZonePatch where
  id : Option String
  label : Option String
  x : Option Nat
  y : Option Nat
  width : Option Nat
  height : Option Nat
  color : Option String
  category : Option String
deriving DecidableEq

/-- Object spread of a ZonePatch over a MapZone. -/
def mergeZone (z : MapZone) (u : ZonePatch) : MapZone :=
  { id := u.id.getD z.id
    label := u.label.getD z.label
    x := u.x.getD z.x
    y := u.y.getD z.y
    width := u.width.getD z.width
    height := u.height.getD z.height
    color := u.color.getD z.color
    category := u.category.getD z.category }

/-- handleAddZone: guests return immediately; otherwise the zone is
appended, the state replaced and broadcast. No localStorage write. -/
def handleAddZone (ctx : ClientCtx) (zone : MapZone) : ClientCtx × List AppStatePayload :=
  if ctx.userRole = UserRole.GUEST then (ctx, [])
  else
    let newZones := ctx.state.zones ++ [zone]
    ({ ctx with state := { ctx.state with zones := newZones } },
     broadcastUpdate ctx
       { spots := none, spotLocations := none, zones := some newZones, mapImage := none })

/-- handleUpdateZone: guests return immediately; otherwise the matching
zone is patched by spread, the state replaced and broadcast. -/
def handleUpdateZone (ctx : ClientCtx) (id : String) (updates : ZonePatch) :
    ClientCtx × List AppStatePayload :=
  if ctx.userRole = UserRole.GUEST then (ctx, [])
  else
    let newZones := ctx.state.zones.map (fun z => if z.id = id then mergeZone z updates else z)
    ({ ctx with state := { ctx.state with zones := newZones } },
     broadcastUpdate ctx
       { spots := none, spotLocations := none, zones := some newZones, mapImage := none })

/-- handleDeleteZone: guests return immediately; otherwise the zone is
filtered out, the state replaced and broadcast. -/
def handleDeleteZone (ctx : ClientCtx) (id : String) : ClientCtx × List AppStatePayload :=
  if ctx.userRole = UserRole.GUEST then (ctx, [])
  else
    let newZones := ctx.state.zones.filter (fun z => z.id != id)
    ({ ctx with state := { ctx.state with zones := newZones } },
     broadcastUpdate ctx
       { spots := none, spotLocations := none, zones := some newZones, mapImage := none })

/-- handleImageUpload after the FileReader produced the base64 string:
guests return before the reader is even created; otherwise the string
is written to the image localStorage key, replaces the mapImage state
and is broadcast. The storage-quota failure path is not modelled. -/
def handleImageUpload (ctx : ClientCtx) (base64String : String) :
    ClientCtx × List AppStatePayload :=
  if ctx.userRole = UserRole.GUEST then (ctx, [])
  else
    ({ ctx with
        storage := { ctx.storage with imageKey := some base64String }
        state := { ctx.state with mapImage := some base64String } },
     broadcastUpdate ctx
       { spots := none, spotLocations := none, zones := none,
         mapImage := some (some base64String) })

/-- handleQuickSaveLayout: guests return false immediately; otherwise
the current spotLocations and zones are written to their localStorage
keys, both are broadcast in one UPDATE, and true is returned. The
storage-quota failure path is not modelled. -/
def handleQuickSaveLayout (ctx : ClientCtx) : ClientCtx × List AppStatePayload × Bool :=
  if ctx.userRole = UserRole.GUEST then (ctx, [], false)
  else
    ({ ctx with
        storage := { ctx.storage with
          locationsKey := some ctx.state.spotLocations
          zonesKey := some ctx.state.zones } },
     broadcastUpdate ctx
       { spots := none, spotLocations := some ctx.state.spotLocations,
         zones := some ctx.state.zones, mapImage := none },
     true)

/-- Folding a sequence of timestamped UPDATE payloads into the relay
document. -/
def serverApplyUpdates (st : AppState) : List (AppStatePayload × Nat) → AppState
  | [] => st
  | (p, n) :: rest => serverApplyUpdates (serverApplyUpdate st p n) rest

/-- Folding a sequence of UPDATE payloads into the client local copy. -/
def clientApplyUpdates (st : LocalState) : List AppStatePayload → LocalState
  | [] => st
  | p :: rest => clientApplyUpdates (clientApplyUpdate st p) rest

/-- Agreement of the relay document and a client local copy on the four
shared fields. -/
def fourFieldsAgree (a : AppState) (l : LocalState) : Prop :=
  a.spots = l.spots ∧ a.spotLocations = l.spotLocations ∧
  a.zones = l.zones ∧ a.mapImage = l.mapImage

instance (a : AppState) (l : LocalState) : Decidable (fourFieldsAgree a l) := by
  unfold fourFieldsAgree
  infer_instance

/-- A payload carrying only a spots list (as built by handleToggleSpot). -/
def payloadSpots (s : List ParkingSpot) : AppStatePayload :=
  { spots := some s, spotLocations := none, zones := none, mapImage := none }

/-- A payload carrying only a zones list (as built by the zone handlers). -/
def payloadZones (z : List MapZone) : AppStatePayload :=
  { spots := none, spotLocations := none, zones := some z, mapImage := none }

/-- A sample spot used in concrete instantiations. -/
def demoSpot : ParkingSpot :=
  { id := "C-01", type := VehicleType.CAR, status := ParkingStatus.FREE, lastUpdated := 0 }

/-- A sample zone used in concrete instantiations. -/
def zoneA : MapZone :=
  { id := "Z1", label := "A", x := 0, y := 0, width := 10, height := 10,
    color := "red", category := "car" }

/-- A second, distinct sample zone. -/
def zoneB : MapZone :=
  { id := "Z2", label := "B", x := 5, y := 5, width := 10, height := 10,
    color := "blue", category := "moto" }

/-- An empty client local state. -/
def emptyLocal : LocalState :=
  { spots := [], spotLocations := [], zones := [], mapImage := none }

/-- An empty persistence fallback. -/
def emptyStorage : LocalStorageModel :=
  { spotsKey := none, locationsKey := none, zonesKey := none, imageKey := none }

/-- C8: applying any UPDATE payload twice to a local document leaves the
same result as applying it once — the whole-field replace merge is
idempotent on the client local copy. -/
theorem claimC8_update_idempotent (d : LocalState) (p : AppStatePayload) :
    clientApplyUpdate (clientApplyUpdate d p) p = clientApplyUpdate d p := by
  obtain ⟨ps, pl, pz, pm⟩ := p
  rcases pm with _ | _ | s
  · cases ps <;> cases pl <;> cases pz <;> rfl
  · cases ps <;> cases pl <;> cases pz <;> rfl
  · by_cases hs : s = "" <;>
      cases ps <;> cases pl <;> cases pz <;>
      simp [clientApplyUpdate, hs]

/-- C9: applying a spots-only payload and a zones-only payload to a
document, in either order, yields the document with spots and zones
replaced and everything else untouched; this holds for the client local
copy (exact state equality) and for the relay document (where
lastUpdated is additionally stamped with the last timestamp). -/
theorem claimC9_field_independence (d : LocalState) (a : AppState)
    (S : List ParkingSpot) (Z : List MapZone) (n1 n2 : Nat) :
    clientApplyUpdate (clientApplyUpdate d (payloadSpots S)) (payloadZones Z) =
      { d with spots := S, zones := Z } ∧
    clientApplyUpdate (clientApplyUpdate d (payloadZones Z)) (payloadSpots S) =
      { d with spots := S, zones := Z } ∧
    serverApplyUpdate (serverApplyUpdate a (payloadSpots S) n1) (payloadZones Z) n2 =
      { a with spots := S, zones := Z, lastUpdated := n2 } ∧
    serverApplyUpdate (serverApplyUpdate a (payloadZones Z) n1) (payloadSpots S) n2 =
      { a with spots := S, zones := Z, lastUpdated := n2 } := by
  exact ⟨rfl, rfl, rfl, rfl⟩

/-- A relay document holding a previously-set map image. -/
def docWithOldImage : AppState :=
  { spots := [], spotLocations := [], zones := [], mapImage := some "old", lastUpdated := 0 }

/-- A client local copy holding a previously-set map image. -/
def localWithOldImage : LocalState :=
  { spots := [], spotLocations := [], zones := [], mapImage := some "old" }

/-- An UPDATE payload whose mapImage key is present with the value null. -/
def payloadNullImage : AppStatePayload :=
  { spots := none, spotLocations := none, zones := none, mapImage := some none }

/-- C1 counterexample: an UPDATE whose mapImage key is present with the
value null does not replace the mapImage field — both the relay and the
client keep the old image, contradicting the claim that a present
mapImage value of null replaces the field as a whole. -/
theorem claimC1_counterexample :
    payloadNullImage.mapImage = some none ∧
    (serverApplyUpdate docWithOldImage payloadNullImage 1).mapImage = some "old" ∧
    (clientApplyUpdate localWithOldImage payloadNullImage).mapImage = some "old" ∧
    some "old" ≠ (none : Option String) := by
  decide

/-- C1 amended: a present spots, spotLocations or zones value replaces the
corresponding field as a whole, and an absent one leaves it untouched, on
both the relay document and the client local copy; a present mapImage
replaces the field only when it is a non-null, non-empty string — a
present null or empty-string mapImage leaves the field untouched, as does
an absent mapImage key. -/
theorem claimC1_amended (d : AppState) (l : LocalState) (p : AppStatePayload) (now : Nat) :
    (∀ v, p.spots = some v →
      (serverApplyUpdate d p now).spots = v ∧ (clientApplyUpdate l p).spots = v) ∧
    (p.spots = none →
      (serverApplyUpdate d p now).spots = d.spots ∧ (clientApplyUpdate l p).spots = l.spots) ∧
    (∀ v, p.spotLocations = some v →
      (serverApplyUpdate d p now).spotLocations = v ∧
      (clientApplyUpdate l p).spotLocations = v) ∧
    (p.spotLocations = none →
      (serverApplyUpdate d p now).spotLocations = d.spotLocations ∧
      (clientApplyUpdate l p).spotLocations = l.spotLocations) ∧
    (∀ v, p.zones = some v →
      (serverApplyUpdate d p now).zones = v ∧ (clientApplyUpdate l p).zones = v) ∧
    (p.zones = none →
      (serverApplyUpdate d p now).zones = d.zones ∧ (clientApplyUpdate l p).zones = l.zones) ∧
    (∀ s, p.mapImage = some (some s) → s ≠ "" →
      (serverApplyUpdate d p now).mapImage = some s ∧
      (clientApplyUpdate l p).mapImage = some s) ∧
    ((p.mapImage = none ∨ p.mapImage = some none ∨ p.mapImage = some (some "")) →
      (serverApplyUpdate d p now).mapImage = d.mapImage ∧
      (clientApplyUpdate l p).mapImage = l.mapImage) := by
  refine ⟨?_, ?_, ?_, ?_, ?_, ?_, ?_, ?_⟩
  · intro v h
    simp [serverApplyUpdate, clientApplyUpdate, h]
  · intro h
    simp [serverApplyUpdate, clientApplyUpdate, h]
  · intro v h
    simp [serverApplyUpdate, clientApplyUpdate, h]
  · intro h
    simp [serverApplyUpdate, clientApplyUpdate, h]
  · intro v h
    simp [serverApplyUpdate, clientApplyUpdate, h]
  · intro h
    simp [serverApplyUpdate, clientApplyUpdate, h]
  · intro s h hs
    simp [serverApplyUpdate, clientApplyUpdate, h, hs]
  · rintro (h | h | h) <;> simp [serverApplyUpdate, clientApplyUpdate, h]

/-- C1 witness: the amended theorem instantiated at a concrete document,
local copy and spots-carrying payload. -/
theorem claimC1_amended_witness :
    (serverApplyUpdate docWithOldImage (payloadSpots [demoSpot]) 5).spots = [demoSpot] ∧
    (clientApplyUpdate localWithOldImage (payloadSpots [demoSpot])).spots = [demoSpot] :=
  (claimC1_amended docWithOldImage localWithOldImage (payloadSpots [demoSpot]) 5).1 [demoSpot] rfl

/-- A relay document with non-empty spots and a null mapImage. -/
def relayStateNullImage : AppState :=
  { spots := [demoSpot], spotLocations := [], zones := [], mapImage := none, lastUpdated := 3 }

/-- A client local copy that already has a map image set. -/
def localWithKeepImage : LocalState :=
  { spots := [], spotLocations := [], zones := [], mapImage := some "keep" }

/-- C2 counterexample: on an INIT whose payload has non-empty spots but a
null mapImage, the client keeps its previous local mapImage instead of
adopting the relay's null, so not all four fields equal the relay's
values after the handler runs. -/
theorem claimC2_counterexample :
    relayStateNullImage.spots ≠ [] ∧
    (clientHandleInit localWithKeepImage localWithKeepImage relayStateNullImage).1.mapImage =
      some "keep" ∧
    some "keep" ≠ relayStateNullImage.mapImage := by
  decide

/-- C2 amended: on an INIT whose payload has non-empty spots, the client
adopts the relay's spots, spotLocations and zones wholesale and sends
nothing; the relay's mapImage is adopted only when it is a non-empty
string, otherwise the client's previous mapImage is retained. -/
theorem claimC2_amended (cl cur : LocalState) (payload : AppState)
    (h : payload.spots ≠ []) :
    (clientHandleInit cl cur payload).1.spots = payload.spots ∧
    (clientHandleInit cl cur payload).1.spotLocations = payload.spotLocations ∧
    (clientHandleInit cl cur payload).1.zones = payload.zones ∧
    (∀ s, payload.mapImage = some s → s ≠ "" →
      (clientHandleInit cl cur payload).1.mapImage = some s) ∧
    ((payload.mapImage = none ∨ payload.mapImage = some "") →
      (clientHandleInit cl cur payload).1.mapImage = cur.mapImage) ∧
    (clientHandleInit cl cur payload).2 = none := by
  have hl : payload.spots.length > 0 := by
    cases hsp : payload.spots with
    | nil => exact absurd hsp h
    | cons a as => simp [hsp]
  refine ⟨?_, ?_, ?_, ?_, ?_, ?_⟩
  · simp [clientHandleInit, hl]
  · simp [clientHandleInit, hl]
  · simp [clientHandleInit, hl]
  · intro s hm hs
    simp [clientHandleInit, hl, hm, hs]
  · rintro (hm | hm) <;> simp [clientHandleInit, hl, hm]
  · simp [clientHandleInit, hl]

/-- C2 witness: the amended theorem instantiated at the concrete relay
state with non-empty spots and a client that had a local image. -/
theorem claimC2_amended_witness :
    (clientHandleInit localWithKeepImage localWithKeepImage relayStateNullImage).1.spots =
      relayStateNullImage.spots :=
  (claimC2_amended localWithKeepImage localWithKeepImage relayStateNullImage (by decide)).1

/-- The client local state captured at mount by the connection effect
closure: one FREE spot. -/
def mountState : LocalState :=
  { spots := [demoSpot], spotLocations := [], zones := [], mapImage := none }

/-- The live client state at reconnect time: the same spot toggled to
OCCUPIED while offline. -/
def offlineEditedState : LocalState :=
  { spots := [{ id := "C-01", type := VehicleType.CAR,
                status := ParkingStatus.OCCUPIED, lastUpdated := 7 }],
    spotLocations := [], zones := [], mapImage := none }

/-- C3: evaluating the INIT handler at an empty relay document when the
live state differs from the mount-time closure state shows the
SYNC_INITIAL payload carries the mount-time snapshot, not the client's
current local state — the connection effect has an empty dependency
array, so the seed closes over stale state. -/
theorem claimC3_stale_seed_eval :
    (clientHandleInit mountState offlineEditedState initialAppState).2 =
      some (WSMessage.SYNC_INITIAL
        { spots := some mountState.spots
          spotLocations := some mountState.spotLocations
          zones := some mountState.zones
          mapImage := some mountState.mapImage }) ∧
    mountState.spots ≠ offlineEditedState.spots := by
  decide

/-- A SYNC_INITIAL once the document holds a non-empty spots list is a
no-op: the guard tests the current spots length. -/
theorem serverApplySyncInitial_nonempty (st : AppState) (p : AppStatePayload)
    (h : st.spots ≠ []) : serverApplySyncInitial st p = st := by
  unfold serverApplySyncInitial
  rw [if_neg]
  simpa using h

/-- A full-field seed payload whose spots list is empty. -/
def emptySpotsSeed : AppStatePayload :=
  { spots := some [], spotLocations := some [], zones := some [zoneA], mapImage := some none }

/-- A second full-field seed payload with different zones. -/
def secondSeed : AppStatePayload :=
  { spots := some [], spotLocations := some [], zones := some [zoneB], mapImage := some none }

/-- C4 counterexample: when the first SYNC_INITIAL carries an empty spots
list, the relay's document still has empty spots afterwards, so a second
SYNC_INITIAL is accepted and changes the document — the claim that the
second message leaves the document entirely unchanged fails. -/
theorem claimC4_counterexample :
    serverApplySyncInitial (serverApplySyncInitial initialAppState emptySpotsSeed) secondSeed ≠
      serverApplySyncInitial initialAppState emptySpotsSeed := by
  decide

/-- C4 amended: given a relay document with empty spots, a first
SYNC_INITIAL whose payload carries a non-empty spots list is spread into
the document (every present payload field replaces the corresponding
field, absent fields and lastUpdated are kept), and any SYNC_INITIAL
received after it is rejected with the document unchanged. -/
theorem claimC4_amended (d : AppState) (p1 p2 : AppStatePayload) (s : List ParkingSpot)
    (hd : d.spots = []) (hp : p1.spots = some s) (hs : s ≠ []) :
    serverApplySyncInitial d p1 =
      { spots := s
        spotLocations := p1.spotLocations.getD d.spotLocations
        zones := p1.zones.getD d.zones
        mapImage := p1.mapImage.getD d.mapImage
        lastUpdated := d.lastUpdated } ∧
    serverApplySyncInitial (serverApplySyncInitial d p1) p2 =
      serverApplySyncInitial d p1 := by
  have h0 : d.spots.length = 0 := by simp [hd]
  have h1 : serverApplySyncInitial d p1 =
      { spots := s
        spotLocations := p1.spotLocations.getD d.spotLocations
        zones := p1.zones.getD d.zones
        mapImage := p1.mapImage.getD d.mapImage
        lastUpdated := d.lastUpdated } := by
    unfold serverApplySyncInitial
    rw [if_pos h0, hp]
    rfl
  refine ⟨h1, serverApplySyncInitial_nonempty _ p2 ?_⟩
  rw [h1]
  simpa using hs

/-- A seed payload carrying one spot. -/
def seedWithSpot : AppStatePayload :=
  { spots := some [demoSpot], spotLocations := some [], zones := some [zoneA],
    mapImage := some none }

/-- C4 witness: the amended theorem instantiated at the empty initial
document, a non-empty first seed and a second seed. -/
theorem claimC4_amended_witness :
    serverApplySyncInitial (serverApplySyncInitial initialAppState seedWithSpot) secondSeed =
      serverApplySyncInitial initialAppState seedWithSpot :=
  (claimC4_amended initialAppState seedWithSpot secondSeed [demoSpot] rfl rfl (by decide)).2

/-- A disconnected admin client with empty state and empty storage. -/
def offlineAdminCtx : ClientCtx :=
  { userRole := UserRole.ADMIN, isConnected := false, state := emptyLocal,
    storage := emptyStorage }

/-- C5 counterexample: a disconnected client applies a spot-location
mutation — the local spotLocations change, but the persistence fallback
is left entirely untouched (the locations key still holds nothing), so
the mutation is not durably recorded. -/
theorem claimC5_counterexample :
    (handleUpdateLocation offlineAdminCtx "C-01" (some { x := 10, y := 20 })).1.state.spotLocations ≠
      offlineAdminCtx.state.spotLocations ∧
    (handleUpdateLocation offlineAdminCtx "C-01" (some { x := 10, y := 20 })).1.storage =
      offlineAdminCtx.storage := by
  decide

/-- C5 amended: regardless of connection state, for a non-guest client:
spots mutations are recorded under the spots key on every change (the
persistence effect), an image upload is recorded under the image key
immediately, and spotLocations and zones are recorded under their keys
only by the explicit quick-save-layout handler; the individual
spot-location and zone mutation handlers leave the persistence fallback
untouched. -/
theorem claimC5_amended (ctx : ClientCtx) (id zid : String) (loc : SpotLocation)
    (z : MapZone) (u : ZonePatch) (b64 : String) (now : Nat)
    (hrole : ctx.userRole ≠ UserRole.GUEST) :
    (handleToggleSpot ctx id now).1.storage.spotsKey =
      some (toggleSpots ctx.state.spots id now) ∧
    (handleImageUpload ctx b64).1.storage.imageKey = some b64 ∧
    (handleQuickSaveLayout ctx).1.storage.locationsKey = some ctx.state.spotLocations ∧
    (handleQuickSaveLayout ctx).1.storage.zonesKey = some ctx.state.zones ∧
    (handleUpdateLocation ctx id (some loc)).1.storage = ctx.storage ∧
    (handleAddZone ctx z).1.storage = ctx.storage ∧
    (handleUpdateZone ctx zid u).1.storage = ctx.storage ∧
    (handleDeleteZone ctx zid).1.storage = ctx.storage := by
  refine ⟨?_, ?_, ?_, ?_, ?_, ?_, ?_, ?_⟩ <;>
    simp [handleToggleSpot, handleImageUpload, handleQuickSaveLayout,
      handleUpdateLocation, handleAddZone, handleUpdateZone, handleDeleteZone,
      persistSpots, hrole]

/-- C5 witness: the amended theorem instantiated at the concrete
disconnected admin client. -/
theorem claimC5_amended_witness :
    (handleQuickSaveLayout offlineAdminCtx).1.storage.locationsKey =
      some offlineAdminCtx.state.spotLocations :=
  (claimC5_amended offlineAdminCtx "C-01" "Z1" { x := 10, y := 20 } zoneA
    { id := none, label := none, x := none, y := none, width := none, height := none,
      color := none, category := none } "img" 9 (by decide)).2.2.1

/-- One UPDATE step preserves agreement of the relay document and a
client local copy on the four shared fields. -/
theorem applyUpdate_preserves_agreement (a : AppState) (l : LocalState)
    (p : AppStatePayload) (n : Nat) (h : fourFieldsAgree a l) :
    fourFieldsAgree (serverApplyUpdate a p n) (clientApplyUpdate l p) := by
  obtain ⟨h1, h2, h3, h4⟩ := h
  refine ⟨?_, ?_, ?_, ?_⟩
  · cases p.spots <;> simp [serverApplyUpdate, clientApplyUpdate, h1]
  · cases p.spotLocations <;> simp [serverApplyUpdate, clientApplyUpdate, h2]
  · cases p.zones <;> simp [serverApplyUpdate, clientApplyUpdate, h3]
  · rcases hm : p.mapImage with _ | _ | s
    · simp [serverApplyUpdate, clientApplyUpdate, hm, h4]
    · simp [serverApplyUpdate, clientApplyUpdate, hm, h4]
    · by_cases hs : s = "" <;> simp [serverApplyUpdate, clientApplyUpdate, hm, hs, h4]

/-- C6: the client per-field UPDATE merge refines the relay per-field
UPDATE merge — starting from states that agree on the four shared fields
and applying the same sequence of UPDATE payloads (the relay side
additionally stamping arbitrary timestamps), the relay document and the
client local copy still agree on spots, spotLocations, zones and
mapImage. -/
theorem claimC6_merge_refinement (a : AppState) (l : LocalState)
    (msgs : List (AppStatePayload × Nat)) (h : fourFieldsAgree a l) :
    fourFieldsAgree (serverApplyUpdates a msgs)
      (clientApplyUpdates l (msgs.map Prod.fst)) := by
  induction msgs generalizing a l with
  | nil => exact h
  | cons m rest ih =>
      obtain ⟨p, n⟩ := m
      exact ih (serverApplyUpdate a p n) (clientApplyUpdate l p)
        (applyUpdate_preserves_agreement a l p n h)

/-- A sample sequence of timestamped UPDATE payloads. -/
def demoMsgs : List (AppStatePayload × Nat) :=
  [(payloadSpots [demoSpot], 5), (payloadZones [zoneA], 6), (payloadNullImage, 7)]

/-- C6 witness: the refinement theorem instantiated at the initial relay
document, the empty local copy and a concrete payload sequence. -/
theorem claimC6_merge_refinement_witness :
    fourFieldsAgree (serverApplyUpdates initialAppState demoMsgs)
      (clientApplyUpdates emptyLocal (demoMsgs.map Prod.fst)) :=
  claimC6_merge_refinement initialAppState emptyLocal demoMsgs (by decide)

/-- Dropping the sender from a peer list with pairwise-distinct ids
removes exactly one element when the sender is present. -/
theorem length_filter_ne_sender (clients : List Peer) (p : Peer)
    (hmem : p ∈ clients) (hnodup : (clients.map Peer.id).Nodup) :
    (clients.filter (fun c => c.id != p.id)).length = clients.length - 1 := by
  induction clients with
  | nil => cases hmem
  | cons c cs ih =>
      rw [List.map_cons, List.nodup_cons] at hnodup
      obtain ⟨hnotin, hnodup2⟩ := hnodup
      rcases List.mem_cons.mp hmem with rfl | hmem2
      · have hall : ∀ x ∈ cs, (x.id != p.id) = true := by
          intro x hx
          have hne : x.id ≠ p.id := by
            intro hEq
            apply hnotin
            rw [← hEq]
            exact List.mem_map_of_mem Peer.id hx
          simpa using hne
        rw [List.filter_cons]
        simp only [bne_self_eq_false, Bool.false_eq_true, if_neg, ite_false]
        rw [List.filter_eq_self.mpr hall]
        simp
      · have hcne : (c.id != p.id) = true := by
          have hne : c.id ≠ p.id := by
            intro hEq
            apply hnotin
            rw [hEq]
            exact List.mem_map_of_mem Peer.id hmem2
          simpa using hne
        rw [List.filter_cons, if_pos hcne, List.length_cons, ih hmem2 hnodup2]
        have hpos : 0 < cs.length := List.length_pos.mpr (List.ne_nil_of_mem hmem2)
        simp only [List.length_cons]
        omega

/-- C7: when the relay processes an UPDATE from a connected peer while N
clients (all with open sockets, pairwise-distinct identities) are
connected, every other peer receives exactly the received payload as an
UPDATE, nothing is ever sent back to the sender, and exactly N minus one
sends are performed. -/
theorem claimC7_fanout (clients : List Peer) (p : Peer) (payload : AppStatePayload)
    (hmem : p ∈ clients) (hnodup : (clients.map Peer.id).Nodup)
    (hopen : ∀ c ∈ clients, c.isOpen = true) :
    (∀ q ∈ clients, q.id ≠ p.id →
      (q.id, WSMessage.UPDATE payload) ∈ serverBroadcast clients p.id payload) ∧
    (∀ e ∈ serverBroadcast clients p.id payload,
      e.1 ≠ p.id ∧ e.2 = WSMessage.UPDATE payload) ∧
    (serverBroadcast clients p.id payload).length = clients.length - 1 := by
  refine ⟨?_, ?_, ?_⟩
  · intro q hq hne
    have hpred : (q.id != p.id && q.isOpen) = true := by
      simp [hne, hopen q hq]
    exact List.mem_map.mpr ⟨q, List.mem_filter.mpr ⟨hq, hpred⟩, rfl⟩
  · intro e he
    obtain ⟨c, hc, rfl⟩ := List.mem_map.mp he
    have hpred := (List.mem_filter.mp hc).2
    simp only [Bool.and_eq_true, bne_iff_ne, ne_eq] at hpred
    exact ⟨hpred.1, rfl⟩
  · have hfil : clients.filter (fun c => c.id != p.id && c.isOpen) =
        clients.filter (fun c => c.id != p.id) :=
      List.filter_congr (fun c hc => by simp [hopen c hc])
    unfold serverBroadcast
    rw [List.length_map, hfil]
    exact length_filter_ne_sender clients p hmem hnodup

/-- Three connected peers with open sockets. -/
def demoPeers : List Peer :=
  [{ id := 1, isOpen := true }, { id := 2, isOpen := true }, { id := 3, isOpen := true }]

/-- C7 witness: the fan-out theorem instantiated at three open peers with
peer 1 as the sender. -/
theorem claimC7_fanout_witness :
    (serverBroadcast demoPeers 1 (payloadSpots [demoSpot])).length = demoPeers.length - 1 :=
  (claimC7_fanout demoPeers { id := 1, isOpen := true } (payloadSpots [demoSpot])
    (by decide) (by decide) (by decide)).2.2

/-- An empty zone patch used in concrete instantiations. -/
def emptyPatch : ZonePatch :=
  { id := none, label := none, x := none, y := none, width := none, height := none,
    color := none, category := none }

/-- C10: when the logged-in role is GUEST, every mutating handler —
toggle spot, update spot location, add, update and delete zone, image
upload and quick-save layout — returns with the client context (state
and storage) completely unchanged and sends no UPDATE message. -/
theorem claimC10_guest_readonly (ctx : ClientCtx) (id zid : String)
    (loc : Option SpotLocation) (z : MapZone) (u : ZonePatch) (b64 : String) (now : Nat)
    (hrole : ctx.userRole = UserRole.GUEST) :
    handleToggleSpot ctx id now = (ctx, []) ∧
    handleUpdateLocation ctx id loc = (ctx, []) ∧
    handleAddZone ctx z = (ctx, []) ∧
    handleUpdateZone ctx zid u = (ctx, []) ∧
    handleDeleteZone ctx zid = (ctx, []) ∧
    handleImageUpload ctx b64 = (ctx, []) ∧
    handleQuickSaveLayout ctx = (ctx, [], false) := by
  refine ⟨?_, ?_, ?_, ?_, ?_, ?_, ?_⟩ <;>
    simp [handleToggleSpot, handleUpdateLocation, handleAddZone, handleUpdateZone,
      handleDeleteZone, handleImageUpload, handleQuickSaveLayout, hrole]

/-- A connected guest client with empty state. -/
def guestCtx : ClientCtx :=
  { userRole := UserRole.GUEST, isConnected := true, state := emptyLocal,
    storage := emptyStorage }

/-- C10 witness: the guest-guard theorem instantiated at a concrete
connected guest client. -/
theorem claimC10_guest_readonly_witness :
    handleToggleSpot guestCtx "C-01" 4 = (guestCtx, []) :=
  (claimC10_guest_readonly guestCtx "C-01" "Z1" none zoneA emptyPatch "img" 4 rfl).1

end SmartPark
